import Mathlib

/-!
Verification of the script-parser coprocessor pipeline.

This file gives a shallow embedding, in Lean 4, of the core pipeline code of
the repository (apps/coprocessor/app): the LLM failover executor, the
track router, the adapter output parser, the ASR hotword policy, the URL and
file workflows, resource cleanup, and the error-to-envelope mapping.
Each definition is translated from the named Python source location; external
collaborators (HTTP clients, the DashScope SDK, the filesystem, json stdlib)
are modelled explicitly where the embedded code observes them.
-/

namespace ScriptParser

/-! ## JSON values

Model of the Python values produced by `json.loads` as used by the adapter
parsing code in `app/services/llm_service.py`.  Numbers are modelled as
integers only: none of the verified code paths computes with JSON numbers.
-/

inductive Json where
  | null : Json
  | bool (b : Bool) : Json
  | num (n : Int) : Json
  | str (s : String) : Json
  | arr (xs : List Json) : Json
  | obj (kvs : List (String × Json)) : Json

/-- Escape one character the way `json.dumps(..., ensure_ascii=False)` does. -/
def escChar (c : Char) : String :=
  if c = '"' then "\\\""
  else if c = '\\' then "\\\\"
  else if c = '\n' then "\\n"
  else if c = '\t' then "\\t"
  else if c = '\r' then "\\r"
  else String.singleton c

/-- Escape a string for JSON serialization. -/
def escape (s : String) : String :=
  s.data.foldl (fun acc c => acc ++ escChar c) ""

mutual

/-- Model of Python `json.dumps(value, ensure_ascii=False)` (default
separators, i.e. a comma-space between items and colon-space after keys),
used by the adapters to serialize a decoded object back to text. -/
def Json.dumps : Json → String
  | .null => "null"
  | .bool true => "true"
  | .bool false => "false"
  | .num n => toString n
  | .str s => "\"" ++ escape s ++ "\""
  | .arr xs => "[" ++ Json.dumpsArr xs ++ "]"
  | .obj kvs => "\x7b" ++ Json.dumpsObj kvs ++ "\x7d"

/-- Serialize the elements of a JSON array. -/
def Json.dumpsArr : List Json → String
  | [] => ""
  | [x] => Json.dumps x
  | x :: xs => Json.dumps x ++ ", " ++ Json.dumpsArr xs

/-- Serialize the members of a JSON object. -/
def Json.dumpsObj : List (String × Json) → String
  | [] => ""
  | [(k, v)] => "\"" ++ escape k ++ "\": " ++ Json.dumps v
  | (k, v) :: kvs => "\"" ++ escape k ++ "\": " ++ Json.dumps v ++ ", " ++ Json.dumpsObj kvs

end

/-- Whitespace skipping for the JSON reader. -/
def skipWs : List Char → List Char
  | c :: cs => if c = ' ' ∨ c = '\n' ∨ c = '\t' ∨ c = '\r' then skipWs cs else c :: cs
  | [] => []

/-- Read the content of a JSON string literal after the opening quote. -/
def parseStrAux : List Char → String → Option (String × List Char)
  | [], _ => none
  | '"' :: rest, acc => some (acc, rest)
  | '\\' :: c :: rest, acc =>
    if c = '"' then parseStrAux rest (acc.push '"')
    else if c = '\\' then parseStrAux rest (acc.push '\\')
    else if c = 'n' then parseStrAux rest (acc.push '\n')
    else if c = 't' then parseStrAux rest (acc.push '\t')
    else if c = 'r' then parseStrAux rest (acc.push '\r')
    else if c = '/' then parseStrAux rest (acc.push '/')
    else none
  | c :: rest, acc => parseStrAux rest (acc.push c)

/-- Read a run of decimal digits as a natural number. -/
def parseDigits : List Char → Option (Nat × List Char)
  | cs =>
    let ds := cs.takeWhile Char.isDigit
    let rest := cs.dropWhile Char.isDigit
    if ds.isEmpty then none
    else some (ds.foldl (fun acc c => acc * 10 + (c.toNat - 48)) 0, rest)

mutual

/-- Model of Python `json.loads` on the JSON fragment exercised by this
code base (null, booleans, integers, strings, arrays, objects).  Fuel-indexed
recursive descent; `Json.loads` below supplies enough fuel for any input. -/
def parseVal : Nat → List Char → Option (Json × List Char)
  | 0, _ => none
  | Nat.succ fuel, cs =>
    match skipWs cs with
    | 'n' :: 'u' :: 'l' :: 'l' :: rest => some (.null, rest)
    | 't' :: 'r' :: 'u' :: 'e' :: rest => some (.bool true, rest)
    | 'f' :: 'a' :: 'l' :: 's' :: 'e' :: rest => some (.bool false, rest)
    | '"' :: rest =>
      match parseStrAux rest "" with
      | some (s, r) => some (.str s, r)
      | none => none
    | '[' :: rest =>
      match skipWs rest with
      | ']' :: r2 => some (.arr [], r2)
      | cs2 =>
        match parseArrItems fuel cs2 with
        | some (xs, r) => some (.arr xs, r)
        | none => none
    | '\x7b' :: rest =>
      match skipWs rest with
      | '\x7d' :: r2 => some (.obj [], r2)
      | cs2 =>
        match parseObjItems fuel cs2 with
        | some (kvs, r) => some (.obj kvs, r)
        | none => none
    | '-' :: rest =>
      match parseDigits rest with
      | some (n, r) => some (.num (-(n : Int)), r)
      | none => none
    | c :: rest =>
      if c.isDigit then
        match parseDigits (c :: rest) with
        | some (n, r) => some (.num (n : Int), r)
        | none => none
      else none
    | [] => none

/-- Parse one-or-more array items separated by commas, up to `]`. -/
def parseArrItems : Nat → List Char → Option (List Json × List Char)
  | 0, _ => none
  | Nat.succ fuel, cs =>
    match parseVal fuel cs with
    | none => none
    | some (v, r) =>
      match skipWs r with
      | ',' :: r2 =>
        match parseArrItems fuel r2 with
        | some (xs, r3) => some (v :: xs, r3)
        | none => none
      | ']' :: r2 => some ([v], r2)
      | _ => none

/-- Parse one-or-more object members separated by commas, up to the closing
brace. -/
def parseObjItems : Nat → List Char → Option (List (String × Json) × List Char)
  | 0, _ => none
  | Nat.succ fuel, cs =>
    match skipWs cs with
    | '"' :: rest =>
      match parseStrAux rest "" with
      | none => none
      | some (k, r) =>
        match skipWs r with
        | ':' :: r2 =>
          match parseVal fuel r2 with
          | none => none
          | some (v, r3) =>
            match skipWs r3 with
            | ',' :: r4 =>
              match parseObjItems fuel r4 with
              | some (kvs, r5) => some ((k, v) :: kvs, r5)
              | none => none
            | '\x7d' :: r4 => some ([(k, v)], r4)
            | _ => none
        | _ => none
    | _ => none

end

/-- Top-level `json.loads`: parse a complete value, rejecting trailing
garbage (Python raises `json.JSONDecodeError`, modelled as `none`). -/
def Json.loads (s : String) : Option Json :=
  match parseVal (s.length + 1) s.data with
  | some (j, rest) => if skipWs rest = [] then some j else none
  | none => none

/-- The single-quote character, used by the model of Python `repr`. -/
def sq : String := String.singleton (Char.ofNat 39)

mutual

/-- Model of Python `repr` on a JSON-decoded value (the rendering `str`
falls back to for lists and dicts). -/
def pyRepr : Json → String
  | .null => "None"
  | .bool true => "True"
  | .bool false => "False"
  | .num n => toString n
  | .str s => sq ++ s ++ sq
  | .arr xs => "[" ++ pyReprArr xs ++ "]"
  | .obj kvs => "\x7b" ++ pyReprObj kvs ++ "\x7d"

/-- `repr` of the elements of a list. -/
def pyReprArr : List Json → String
  | [] => ""
  | [x] => pyRepr x
  | x :: xs => pyRepr x ++ ", " ++ pyReprArr xs

/-- `repr` of the members of a dict. -/
def pyReprObj : List (String × Json) → String
  | [] => ""
  | [(k, v)] => sq ++ k ++ sq ++ ": " ++ pyRepr v
  | (k, v) :: kvs => sq ++ k ++ sq ++ ": " ++ pyRepr v ++ ", " ++ pyReprObj kvs

end

/-- Model of Python `str()` applied to a JSON-decoded value. -/
def pyStr : Json → String
  | .str s => s
  | .null => "None"
  | .bool true => "True"
  | .bool false => "False"
  | .num n => toString n
  | .arr xs => pyRepr (.arr xs)
  | .obj kvs => pyRepr (.obj kvs)

/-- Model of Python truthiness on a JSON-decoded value (used by the
`key_quotes` comprehension filter `if q`). -/
def pyTruthy : Json → Bool
  | .null => false
  | .bool b => b
  | .num n => n != 0
  | .str s => !(s == "")
  | .arr xs => !xs.isEmpty
  | .obj kvs => !kvs.isEmpty

/-- Dict lookup on a decoded JSON object.  `json.loads` keeps the last
binding for a duplicated key, hence the reverse search. -/
def lookupKey (kvs : List (String × Json)) (k : String) : Option Json :=
  match kvs.reverse.find? (fun kv => kv.1 == k) with
  | some kv => some kv.2
  | none => none

/-! ## LLM service adapters — `app/services/llm_service.py` -/

/-- `llm_service.LLMError`: the exception type raised by the adapters and
the failover executor; it carries only a message. -/
structure LLMError where
  message : String
deriving DecidableEq

/-- `llm_service.AnalysisDetail` (a pydantic model). -/
structure AnalysisDetail where
  hook : String
  core : String
  cta : String
  key_quotes : Option (List String)
deriving DecidableEq

/-- `llm_service.AnalysisResult` (a pydantic model). -/
structure AnalysisResult where
  raw_transcript : String
  cleaned_transcript : String
  analysis : AnalysisDetail
deriving DecidableEq

/-- Python-level errors of the adapter parsing block: `KeyError` from a
missing dict key, `TypeError` from subscripting a non-dict, and pydantic
validation failure on a non-string field. -/
inductive PyError where
  | keyError (key : String)
  | typeError (msg : String)
  | validationError (msg : String)
deriving DecidableEq

/-- `to_string` from `llm_service.py` lines 147-151 (and identically lines
287-291): coerce a decoded value to a string, serializing dicts as JSON
text instead of failing. -/
def to_string (value : Json) : String :=
  match value with
  | .obj kvs => Json.dumps (.obj kvs)
  | v => pyStr v

/-- The `schema_type` test of `llm_service.py` line 131 (and 271):
`"schema_type" in analysis_data and analysis_data["schema_type"] == "v3_tech_spec"`. -/
def schemaTypeIsTech (kvs : List (String × Json)) : Bool :=
  match lookupKey kvs "schema_type" with
  | some (.str s) => s == "v3_tech_spec"
  | _ => false

/-- The `key_quotes` extraction of `llm_service.py` lines 155-160 (and
295-300): if present and a list, keep the truthy elements coerced by
`str`; otherwise `None`. -/
def extract_key_quotes (akvs : List (String × Json)) : Option (List String) :=
  match lookupKey akvs "key_quotes" with
  | some (.arr qs) => some ((qs.filter pyTruthy).map pyStr)
  | _ => none

/-- The adapter response-parsing block of `DeepSeekAdapter.analyze`,
`llm_service.py` lines 128-175, applied to the JSON value decoded from the
model output (the block is textually identical in `KimiAdapter.analyze`,
lines 268-315).  If the decoded object carries the `v3_tech_spec` schema
marker, the whole object is re-serialized into `cleaned_transcript` and the
narrative fields are left empty; otherwise the narrative fields are
extracted, with `hook`/`core`/`cta` coerced through `to_string`.
Key lookups that would raise `KeyError` are the error cases, in the
evaluation order of the Python source. -/
def parse_analysis_data (analysis_data : Json) : Except PyError AnalysisResult :=
  match analysis_data with
  | .obj kvs =>
    if schemaTypeIsTech kvs then
      .ok ⟨"", Json.dumps (.obj kvs), ⟨"", "", "", none⟩⟩
    else
      match lookupKey kvs "analysis" with
      | none => .error (.keyError "analysis")
      | some analysis_obj =>
        match analysis_obj with
        | .obj akvs =>
          let key_quotes := extract_key_quotes akvs
          match lookupKey kvs "raw_transcript" with
          | none => .error (.keyError "raw_transcript")
          | some rawJ =>
            match lookupKey kvs "cleaned_transcript" with
            | none => .error (.keyError "cleaned_transcript")
            | some cleanedJ =>
              match lookupKey akvs "hook" with
              | none => .error (.keyError "hook")
              | some hookJ =>
                match lookupKey akvs "core" with
                | none => .error (.keyError "core")
                | some coreJ =>
                  match lookupKey akvs "cta" with
                  | none => .error (.keyError "cta")
                  | some ctaJ =>
                    match rawJ, cleanedJ with
                    | .str raw_s, .str cleaned_s =>
                      .ok ⟨raw_s, cleaned_s,
                        ⟨to_string hookJ, to_string coreJ, to_string ctaJ, key_quotes⟩⟩
                    | _, _ =>
                      .error (.validationError "raw_transcript and cleaned_transcript must be strings")
        | _ => .error (.typeError "analysis object is not a dict")
  | _ => .error (.typeError "decoded response is not a dict")

/-! ## Failover executor — `app/services/llm_execution_service.py` and
`LLMRouter` in `app/services/llm_service.py`

The adapters are modelled as functions from the input text to either a
result or a raised `LLMError` (every failure of an adapter is re-raised as
`LLMError` by its own handlers, so `LLMError` is the only exception the
executor observes). -/

/-- `LLMExecutionService.execute_with_failover`
(`llm_execution_service.py` lines 54-103): try the primary service; on
`LLMError` try the fallback; if both fail raise one aggregated `LLMError`
containing both captured error strings. -/
def LLMExecutionService.execute_with_failover
    (primary fallback : String → Except LLMError AnalysisResult)
    (text : String) : Except LLMError AnalysisResult :=
  match primary text with
  | .ok result => .ok result
  | .error e =>
    match fallback text with
    | .ok result => .ok result
    | .error e2 =>
      .error ⟨"All LLM services failed.\nPrimary (DeepSeek) error: " ++ e.message
        ++ "\nFallback (Kimi) error: " ++ e2.message⟩

/-- Invocation-counting companion of `execute_with_failover`: the same
control flow, additionally reporting how many times the primary and the
fallback candidate were invoked (each call site of the source appears
exactly once per branch). -/
def LLMExecutionService.execute_with_failover_calls
    (primary fallback : String → Except LLMError AnalysisResult)
    (text : String) : Except LLMError AnalysisResult × Nat × Nat :=
  match primary text with
  | .ok result => (.ok result, 1, 0)
  | .error e =>
    match fallback text with
    | .ok result => (.ok result, 1, 1)
    | .error e2 =>
      (.error ⟨"All LLM services failed.\nPrimary (DeepSeek) error: " ++ e.message
        ++ "\nFallback (Kimi) error: " ++ e2.message⟩, 1, 1)

/-- `LLMRouter.analyze` (`llm_service.py` lines 347-378): the same
two-candidate protocol with the Kimi/DeepSeek role labels. -/
def LLMRouter.analyze
    (primary fallback : String → Except LLMError AnalysisResult)
    (text : String) : Except LLMError AnalysisResult :=
  match primary text with
  | .ok result => .ok result
  | .error e =>
    match fallback text with
    | .ok result => .ok result
    | .error e2 =>
      .error ⟨"All LLM services failed.\nPrimary (Kimi) error: " ++ e.message
        ++ "\nFallback (DeepSeek) error: " ++ e2.message⟩

/-- Invocation-counting companion of `LLMRouter.analyze`. -/
def LLMRouter.analyze_calls
    (primary fallback : String → Except LLMError AnalysisResult)
    (text : String) : Except LLMError AnalysisResult × Nat × Nat :=
  match primary text with
  | .ok result => (.ok result, 1, 0)
  | .error e =>
    match fallback text with
    | .ok result => (.ok result, 1, 1)
    | .error e2 =>
      (.error ⟨"All LLM services failed.\nPrimary (Kimi) error: " ++ e.message
        ++ "\nFallback (DeepSeek) error: " ++ e2.message⟩, 1, 1)

/-! ## Track router — `app/services/llm_track_router.py` -/

/-- Replace every occurrence of a non-empty pattern, fuel-indexed so that
it evaluates by kernel reduction. -/
def replaceAux (pat repl : List Char) : Nat → List Char → List Char
  | 0, cs => cs
  | Nat.succ fuel, cs =>
    match cs with
    | [] => []
    | c :: cs2 =>
      if pat.isPrefixOf (c :: cs2) then
        repl ++ replaceAux pat repl fuel (List.drop pat.length (c :: cs2))
      else
        c :: replaceAux pat repl fuel cs2

/-- Model of Python `str.replace(pattern, replacement)`: replace all
occurrences.  Only called with the fixed non-empty placeholder token, so
the empty-pattern case (where Python interleaves the replacement) is
mapped to the identity. -/
def pyReplace (s pattern replacement : String) : String :=
  if pattern = "" then s
  else ⟨replaceAux pattern.data replacement.data (s.length + 1) s.data⟩

/-- The value returned by `LLMTrackRouter.get_analysis`: an
`AnalysisResult` object for general mode, or the decoded tech-spec dict
for tech mode (the source return type is `AnalysisResult | dict`). -/
inductive RouteResult where
  | narrative (result : AnalysisResult)
  | techSpec (data : Json)

/-- The exceptions `get_analysis` can raise: `ValueError` for an invalid
mode and `LLMError` for execution or tech-spec decoding failures. -/
inductive RouteError where
  | valueError (msg : String)
  | llmError (msg : String)

/-- `LLMTrackRouter.route_map` (`llm_track_router.py` lines 52-61):
mode name, prompt file, output type. -/
def LLMTrackRouter.route_map : List (String × String × String) :=
  [("general", "structured_analysis.prompt", "v2_narrative"),
   ("tech", "tech_spec_extraction.prompt", "v3_tech_spec")]

/-- `LLMTrackRouter.get_analysis` (`llm_track_router.py` lines 63-169).
The prompt file content is passed in as `prompt_content` (the source loads
it from disk via `_load_prompt`; a missing file raises before any of the
logic modelled here) and the execution service as a function.  General
mode returns the execution result unchanged; tech mode substitutes the
transcript into the literal placeholder token, then decodes the JSON text
found in the returned object (`cleaned_transcript`, falling back to
`raw_transcript` when it is empty, per the Python `or`).  The source's
`isinstance(raw_response, AnalysisResult)` test is always true here since
the execution service returns `AnalysisResult`. -/
def LLMTrackRouter.get_analysis (analysis_mode : String) (transcript : String)
    (prompt_content : String)
    (execution_service : String → Except LLMError AnalysisResult) :
    Except RouteError RouteResult :=
  if (LLMTrackRouter.route_map.find? (fun rc => rc.1 == analysis_mode)).isNone then
    .error (.valueError ("Invalid analysis_mode: " ++ analysis_mode
      ++ ". Must be one of: general, tech"))
  else if analysis_mode == "general" then
    match execution_service transcript with
    | .ok result => .ok (.narrative result)
    | .error e => .error (.llmError e.message)
  else if analysis_mode == "tech" then
    let prompt_with_transcript :=
      pyReplace prompt_content "\x7b\x7bTRANSCRIPT_PLACEHOLDER\x7d\x7d" transcript
    match execution_service prompt_with_transcript with
    | .error e => .error (.llmError e.message)
    | .ok raw_response =>
      let json_text :=
        if raw_response.cleaned_transcript ≠ "" then raw_response.cleaned_transcript
        else raw_response.raw_transcript
      match Json.loads json_text with
      | some tech_spec_data => .ok (.techSpec tech_spec_data)
      | none =>
        .error (.llmError ("Failed to parse tech spec JSON from LLM response. "
          ++ "Response preview: " ++ json_text.take 200))
  else
    .error (.valueError ("Unexpected analysis_mode: " ++ analysis_mode))

/-! ## ASR hotword policy — `app/services/asr_service.py`

`ASRService.transcribe_from_url` builds its DashScope call parameters and
handles the Tech-mode hotword configuration (lines 82-104) before any
external call is made.  The whole section up to the first external call is
embedded; the environment variable `ALIYUN_TECH_HOTWORD_ID` is passed in
as an `Option String` (absent or set). -/

/-- Drop leading Python whitespace from a character list. -/
def pyStripLeft : List Char → List Char
  | [] => []
  | c :: cs =>
    if c = ' ' ∨ c = '\n' ∨ c = '\t' ∨ c = '\r' then pyStripLeft cs else c :: cs

/-- Model of Python `str.strip()`: drop whitespace from both ends. -/
def pyStrip (s : String) : String :=
  ⟨pyStripLeft ((pyStripLeft s.data.reverse).reverse)⟩

/-- The keyword arguments of the `dashscope` transcription call. -/
structure ApiParams where
  model : String
  file_urls : List String
  language_hints : List String
deriving DecidableEq

/-- The exceptions the pre-call section could raise (`ValueError` is what
the docstring and `test_asr_service.py` line 442 promise for Tech mode
without a configured hotword id). -/
inductive AsrPreError where
  | valueError (msg : String)
deriving DecidableEq

/-- The pre-external-call section of `ASRService.transcribe_from_url`
(`asr_service.py` lines 82-104): build `api_params`; in tech mode read
`ALIYUN_TECH_HOTWORD_ID` and **only log** whether it is configured; in
general mode log that no hotword table is used.  The function returns the
parameters for the external call together with the log lines it emitted;
note that no error branch exists and the hotword id is never added to
`api_params` (the source comment says hotword injection is disabled). -/
def ASRService.transcribe_from_url_pre (model : String) (video_url : String)
    (analysis_mode : String) (env_hotword_id : Option String) :
    Except AsrPreError (ApiParams × List String) :=
  let api_params : ApiParams := ⟨model, [video_url], ["zh", "en"]⟩
  let logs :=
    if analysis_mode == "tech" then
      let hotword_id := pyStrip (env_hotword_id.getD "")
      if hotword_id ≠ "" then
        ["warning: 热词功能暂不可用: 需要在 DashScope 控制台创建短语表",
         "info: 当前热词表ID (智能语音交互): " ++ hotword_id]
      else
        ["info: 科技模式: 未配置热词表"]
    else
      ["info: 分析模式: " ++ analysis_mode ++ "，不使用热词表"]
  .ok (api_params, logs)

/-! ## Workflow orchestration — `app/main.py`

`WorkflowOrchestrator.process_url_workflow` and `process_file_workflow`
sequence transcription and analysis.  The external ASR call is modelled as
its outcome: either a transcript text or a raised exception, whose Python
class determines which `except` clause (if any) catches it. -/

/-- The Python exception classes relevant to the workflow `except`
clauses. -/
inductive ExcKind where
  | asrError
  | valueError
  | ossUploaderError
  | otherExc
deriving DecidableEq

/-- A raised Python exception: its class and its message. -/
structure RaisedExc where
  kind : ExcKind
  msg : String
deriving DecidableEq

/-- `url_parser.VideoInfo`, as consumed by the URL workflow. -/
structure VideoInfo where
  video_id : String
  platform : String
  title : String
  download_url : String
deriving DecidableEq

/-- `file_handler.TempFileInfo` (a pydantic model). -/
structure TempFileInfo where
  file_path : String
  original_filename : String
  size : Nat
deriving DecidableEq

/-- The `llm_analysis` dict built by the workflows: either the three
narrative fields, or a single `error` entry when the LLM stage failed. -/
inductive LlmAnalysisField where
  | fields (hook core cta : String)
  | errorField (msg : String)
deriving DecidableEq

/-- The `AnalysisData` response model of `main.py` (transcript plus the
analysis dict; the static `video_info`/`file_info` sub-dict is echoed
input, omitted here). -/
structure AnalysisData where
  transcript : String
  llm_analysis : LlmAnalysisField
deriving DecidableEq

/-- The LLM-analysis stage shared by both workflows (`main.py` lines
200-222 and 285-309): call `llm_router.analyze` on the transcript; on
`LLMError` degrade to an `error` entry.  On success the source reads
`analysis_result.hook`/`.core`/`.cta`, attributes the v3 `AnalysisResult`
pydantic model does not define, so an `AttributeError` (caught by no
clause here) propagates; its message is modelled without the quoting of
the Python original. -/
def llmAnalysisStep (llm : String → Except LLMError AnalysisResult)
    (transcript : String) : Except RaisedExc LlmAnalysisField :=
  match llm transcript with
  | .ok _ =>
    .error ⟨.otherExc, "AttributeError: AnalysisResult object has no attribute hook"⟩
  | .error e => .ok (.errorField ("LLM analysis failed: " ++ e.message))

/-- The analysis-and-assembly tail of `process_url_workflow` (`main.py`
lines 200-242), as a function of the transcript produced by the
transcription stage. -/
def urlAnalysisPhase (_vi : VideoInfo) (transcript_text : String)
    (llm : String → Except LLMError AnalysisResult) :
    Except RaisedExc AnalysisData :=
  match llmAnalysisStep llm transcript_text with
  | .ok llm_analysis => .ok ⟨transcript_text, llm_analysis⟩
  | .error e => .error e

/-- `WorkflowOrchestrator.process_url_workflow` (`main.py` lines 162-242).
The ASR stage outcome is passed in; an `ASRError` or `ValueError` is
caught and degraded into the fallback transcript
`"Video: {title} (ASR failed: {reason})"`; any other exception class
propagates (the `except` clause at line 191 names only those two).  The
workflow then proceeds to the LLM analysis stage on whatever transcript
it has. -/
def WorkflowOrchestrator.process_url_workflow (vi : VideoInfo)
    (asr : Except RaisedExc String)
    (llm : String → Except LLMError AnalysisResult) :
    Except RaisedExc AnalysisData :=
  match asr with
  | .ok t => urlAnalysisPhase vi t llm
  | .error e =>
    match e.kind with
    | .asrError =>
      urlAnalysisPhase vi ("Video: " ++ vi.title ++ " (ASR failed: " ++ e.msg ++ ")") llm
    | .valueError =>
      urlAnalysisPhase vi ("Video: " ++ vi.title ++ " (ASR failed: " ++ e.msg ++ ")") llm
    | _ => .error e

/-- The analysis-and-assembly tail of `process_file_workflow` (`main.py`
lines 285-328). -/
def fileAnalysisPhase (_fi : TempFileInfo) (transcript_text : String)
    (llm : String → Except LLMError AnalysisResult) :
    Except RaisedExc AnalysisData :=
  match llmAnalysisStep llm transcript_text with
  | .ok llm_analysis => .ok ⟨transcript_text, llm_analysis⟩
  | .error e => .error e

/-- `WorkflowOrchestrator.process_file_workflow` (`main.py` lines
244-328).  Unlike the URL workflow, the clause catching
`(ASRError, ValueError, OSSUploaderError)` **re-raises** the error "to
stop the workflow and return a proper error response" (source comment at
line 272); only an unexpected exception class degrades into the fallback
transcript `"File: {name} (Processing failed: {reason})"`. -/
def WorkflowOrchestrator.process_file_workflow (fi : TempFileInfo)
    (asr : Except RaisedExc String)
    (llm : String → Except LLMError AnalysisResult) :
    Except RaisedExc AnalysisData :=
  match asr with
  | .ok t => fileAnalysisPhase fi t llm
  | .error e =>
    match e.kind with
    | .asrError => .error e
    | .valueError => .error e
    | .ossUploaderError => .error e
    | .otherExc =>
      fileAnalysisPhase fi
        ("File: " ++ fi.original_filename ++ " (Processing failed: " ++ e.msg ++ ")") llm

/-! ## Resource cleanup — `FileHandler.cleanup` and
`WorkflowOrchestrator.cleanup_resources`

The filesystem is modelled as an existence predicate on paths, and the
behaviour of `Path.unlink` on the staged path as an outcome parameter
(success, or one of the exception classes the source names). -/

/-- Possible outcomes of the underlying `file_path.unlink()` call. -/
inductive UnlinkOutcome where
  | ok
  | permissionError (msg : String)
  | osError (msg : String)
  | otherError (msg : String)
deriving DecidableEq

/-- `FileHandler.cleanup` (`file_handler.py` lines 85-119): if the path
exists, unlink it; `PermissionError`, `OSError` and any other exception
are each caught and swallowed (`pass`), so the function never raises —
its return type carries no error.  It returns the updated filesystem. -/
def FileHandler.cleanup (fs : String → Bool) (unlink : UnlinkOutcome)
    (file_path : String) : String → Bool :=
  if fs file_path then
    match unlink with
    | .ok => fun q => if q == file_path then false else fs q
    | .permissionError _ => fs
    | .osError _ => fs
    | .otherError _ => fs
  else fs

/-- `WorkflowOrchestrator.cleanup_resources` (`main.py` lines 330-356):
when a `TempFileInfo` is present, call `FileHandler.cleanup` on its path
inside a further `try`/`except Exception` that swallows any cleanup
error; with no temp file, do nothing. -/
def WorkflowOrchestrator.cleanup_resources (fs : String → Bool)
    (unlink : UnlinkOutcome) : Option TempFileInfo → (String → Bool)
  | some fi => FileHandler.cleanup fs unlink fi.file_path
  | none => fs

/-- The `try`/`finally` of the `parse_video` endpoint (`main.py` lines
513-638): whatever the outcome of the request body (a success value, an
`HTTPException`, or a mapped unexpected error), the `finally` block runs
`cleanup_resources`; since `cleanup_resources` cannot raise, the
original outcome is returned unchanged next to the updated filesystem. -/
def parse_video_finalize (outcome : Except RaisedExc AnalysisData)
    (fs : String → Bool) (unlink : UnlinkOutcome)
    (temp_file_info : Option TempFileInfo) :
    Except RaisedExc AnalysisData × (String → Bool) :=
  (outcome, WorkflowOrchestrator.cleanup_resources fs unlink temp_file_info)

/-! ## Error taxonomy — `app/error_handling.py` -/

/-- Python exception classes as seen by
`ErrorHandler.create_error_response`.  The `subclass` constructor stands
for any class derived from `parent` (for instance a service-specific
refinement of `ASRError`); it is distinct, as a dict key, from every
named class. -/
inductive ExcClass where
  | urlParserError
  | asrError
  | llmError
  | fileHandlerError
  | ossUploaderError
  | serviceInitializationError
  | nlsAsrError
  | valueError
  | attributeError
  | subclass (parent : ExcClass) (name : String)
deriving DecidableEq

/-- `ErrorHandler.ERROR_MAPPINGS` (`error_handling.py` lines 58-85): a
dict keyed by exception **class**; Python dict lookup on `type(exception)`
compares class identity, so only the exact six registered classes are
mapped — any other class, including a proper subclass of a mapped class,
misses. -/
def ErrorHandler.ERROR_MAPPINGS : ExcClass → Option (Nat × Nat × String)
  | .urlParserError => some (400, 4001, "Failed to parse video URL")
  | .asrError => some (503, 5001, "ASR service is temporarily unavailable")
  | .llmError => some (502, 5002, "LLM service error occurred")
  | .fileHandlerError => some (500, 5003, "File processing error")
  | .ossUploaderError => some (503, 5004, "OSS service is temporarily unavailable")
  | .serviceInitializationError => some (500, 5005, "Service initialization failed")
  | _ => none

/-- The `HTTPException` payload built by
`ErrorHandler.create_error_response`. -/
structure HTTPExceptionModel where
  status_code : Nat
  code : Nat
  success : Bool
  message : String
  processing_time : Option Nat
deriving DecidableEq

/-- `ErrorHandler.create_error_response` (`error_handling.py` lines
87-126): look the exception class up in `ERROR_MAPPINGS` by
`type(exception)`; when mapped, use the mapped HTTP status and business
code with the exception message as the user message; otherwise fall
through to the fixed `UnknownError` envelope (HTTP 500, code 9999,
constant message).  `processing_time` is the already-computed elapsed
time, present when a start time was recorded. -/
def ErrorHandler.create_error_response (exc_class : ExcClass) (exc_message : String)
    (processing_time : Option Nat) : HTTPExceptionModel :=
  match ErrorHandler.ERROR_MAPPINGS exc_class with
  | some (http_status, business_code, _) =>
    ⟨http_status, business_code, false, exc_message, processing_time⟩
  | none =>
    ⟨500, 9999, false, "An internal server error occurred", processing_time⟩

/-- Substring containment on character lists, used to state that an
aggregated error message contains a labeled error string. -/
def containsSub (big small : List Char) : Prop :=
  ∃ s t, big = s ++ small ++ t

/-! ## Concrete sample values used by the witness theorems -/

/-- A sample narrative analysis detail. -/
def sampleDetail : AnalysisDetail := ⟨"h", "c", "a", none⟩

/-- A sample adapter result. -/
def sampleResult : AnalysisResult := ⟨"raw text", "clean text", sampleDetail⟩

/-- A sample resolved video. -/
def sampleVideo : VideoInfo := ⟨"vid1", "douyin", "T", "https://x/video.mp4"⟩

/-- A sample staged temporary file. -/
def sampleTempFile : TempFileInfo :=
  ⟨"/tmp/scriptparser/u-1-a.mp4", "a.mp4", 1024⟩

/-! ## Theorems -/

/-- **C1.** The failover executor implements the reference two-candidate
protocol: for every input text, if the primary adapter succeeds, its
result is returned unchanged and the fallback is never invoked (invocation
count 0); if the primary raises and the fallback succeeds, the returned
result equals the fallback result exactly.  Stated for both
implementations, `LLMExecutionService.execute_with_failover` and
`LLMRouter.analyze`. -/
theorem failover_primary_first_protocol
    (primary fallback : String → Except LLMError AnalysisResult)
    (text : String) (r : AnalysisResult) :
    (primary text = .ok r →
      LLMExecutionService.execute_with_failover primary fallback text = .ok r ∧
      (LLMExecutionService.execute_with_failover_calls primary fallback text).2.2 = 0 ∧
      LLMRouter.analyze primary fallback text = .ok r ∧
      (LLMRouter.analyze_calls primary fallback text).2.2 = 0) ∧
    (∀ e, primary text = .error e → fallback text = .ok r →
      LLMExecutionService.execute_with_failover primary fallback text = .ok r ∧
      LLMRouter.analyze primary fallback text = .ok r) := by
  constructor
  · intro h
    simp [LLMExecutionService.execute_with_failover,
      LLMExecutionService.execute_with_failover_calls,
      LLMRouter.analyze, LLMRouter.analyze_calls, h]
  · intro e hp hf
    simp [LLMExecutionService.execute_with_failover, LLMRouter.analyze, hp, hf]

/-- Witness for C1: a concrete always-succeeding primary with a failing
fallback, and a failing primary with a succeeding fallback. -/
theorem failover_primary_first_protocol_witness :
    (LLMExecutionService.execute_with_failover
        (fun _ => .ok sampleResult) (fun _ => .error ⟨"fallback down"⟩) "hello"
        = .ok sampleResult ∧
      (LLMExecutionService.execute_with_failover_calls
        (fun _ => .ok sampleResult) (fun _ => .error ⟨"fallback down"⟩) "hello").2.2 = 0 ∧
      LLMRouter.analyze
        (fun _ => .ok sampleResult) (fun _ => .error ⟨"fallback down"⟩) "hello"
        = .ok sampleResult ∧
      (LLMRouter.analyze_calls
        (fun _ => .ok sampleResult) (fun _ => .error ⟨"fallback down"⟩) "hello").2.2 = 0) ∧
    (LLMExecutionService.execute_with_failover
        (fun _ => .error ⟨"primary down"⟩) (fun _ => .ok sampleResult) "hello"
        = .ok sampleResult ∧
      LLMRouter.analyze
        (fun _ => .error ⟨"primary down"⟩) (fun _ => .ok sampleResult) "hello"
        = .ok sampleResult) :=
  ⟨(failover_primary_first_protocol (fun _ => .ok sampleResult)
      (fun _ => .error ⟨"fallback down"⟩) "hello" sampleResult).1 rfl,
   (failover_primary_first_protocol (fun _ => .error ⟨"primary down"⟩)
      (fun _ => .ok sampleResult) "hello" sampleResult).2 ⟨"primary down"⟩ rfl rfl⟩

/-- **C2.** Failover exhaustion: if both the primary and the fallback
fail, the executor raises a single aggregated error whose message
contains both captured error strings, each labeled by its role, and
neither candidate is invoked more than once.  Stated for both
implementations with their respective role labels. -/
theorem failover_exhaustion_aggregates_both_errors
    (primary fallback : String → Except LLMError AnalysisResult)
    (text : String) (pe fe : LLMError)
    (hp : primary text = .error pe) (hf : fallback text = .error fe) :
    (∃ agg : LLMError,
      LLMExecutionService.execute_with_failover primary fallback text = .error agg ∧
      containsSub agg.message.data ("Primary (DeepSeek) error: " ++ pe.message).data ∧
      containsSub agg.message.data ("Fallback (Kimi) error: " ++ fe.message).data) ∧
    (LLMExecutionService.execute_with_failover_calls primary fallback text).2.1 = 1 ∧
    (LLMExecutionService.execute_with_failover_calls primary fallback text).2.2 = 1 ∧
    (∃ agg : LLMError,
      LLMRouter.analyze primary fallback text = .error agg ∧
      containsSub agg.message.data ("Primary (Kimi) error: " ++ pe.message).data ∧
      containsSub agg.message.data ("Fallback (DeepSeek) error: " ++ fe.message).data) := by
  have lit1 : ("All LLM services failed.\nPrimary (DeepSeek) error: " : String).data
      = ("All LLM services failed.\n" : String).data
        ++ ("Primary (DeepSeek) error: " : String).data := rfl
  have lit2 : ("\nFallback (Kimi) error: " : String).data
      = ("\n" : String).data ++ ("Fallback (Kimi) error: " : String).data := rfl
  have lit3 : ("All LLM services failed.\nPrimary (Kimi) error: " : String).data
      = ("All LLM services failed.\n" : String).data
        ++ ("Primary (Kimi) error: " : String).data := rfl
  have lit4 : ("\nFallback (DeepSeek) error: " : String).data
      = ("\n" : String).data ++ ("Fallback (DeepSeek) error: " : String).data := rfl
  refine ⟨⟨⟨"All LLM services failed.\nPrimary (DeepSeek) error: " ++ pe.message
      ++ "\nFallback (Kimi) error: " ++ fe.message⟩,
      by simp [LLMExecutionService.execute_with_failover, hp, hf], ?_, ?_⟩,
    by simp [LLMExecutionService.execute_with_failover_calls, hp, hf],
    by simp [LLMExecutionService.execute_with_failover_calls, hp, hf],
    ⟨⟨"All LLM services failed.\nPrimary (Kimi) error: " ++ pe.message
      ++ "\nFallback (DeepSeek) error: " ++ fe.message⟩,
      by simp [LLMRouter.analyze, hp, hf], ?_, ?_⟩⟩
  · exact ⟨("All LLM services failed.\n" : String).data,
      (("\nFallback (Kimi) error: " : String) ++ fe.message).data,
      by simp [String.data_append, lit1, List.append_assoc]⟩
  · exact ⟨(("All LLM services failed.\nPrimary (DeepSeek) error: " : String)
        ++ pe.message ++ "\n").data, [],
      by simp [String.data_append, lit2, List.append_assoc]⟩
  · exact ⟨("All LLM services failed.\n" : String).data,
      (("\nFallback (DeepSeek) error: " : String) ++ fe.message).data,
      by simp [String.data_append, lit3, List.append_assoc]⟩
  · exact ⟨(("All LLM services failed.\nPrimary (Kimi) error: " : String)
        ++ pe.message ++ "\n").data, [],
      by simp [String.data_append, lit4, List.append_assoc]⟩

/-- Witness for C2: two concrete failing adapters. -/
theorem failover_exhaustion_aggregates_both_errors_witness :
    (∃ agg : LLMError,
      LLMExecutionService.execute_with_failover
        (fun _ => .error ⟨"timeout A"⟩) (fun _ => .error ⟨"http 500 B"⟩) "hi"
        = .error agg ∧
      containsSub agg.message.data ("Primary (DeepSeek) error: " ++ "timeout A").data ∧
      containsSub agg.message.data ("Fallback (Kimi) error: " ++ "http 500 B").data) ∧
    (LLMExecutionService.execute_with_failover_calls
      (fun _ => .error ⟨"timeout A"⟩) (fun _ => .error ⟨"http 500 B"⟩) "hi").2.1 = 1 ∧
    (LLMExecutionService.execute_with_failover_calls
      (fun _ => .error ⟨"timeout A"⟩) (fun _ => .error ⟨"http 500 B"⟩) "hi").2.2 = 1 ∧
    (∃ agg : LLMError,
      LLMRouter.analyze
        (fun _ => .error ⟨"timeout A"⟩) (fun _ => .error ⟨"http 500 B"⟩) "hi"
        = .error agg ∧
      containsSub agg.message.data ("Primary (Kimi) error: " ++ "timeout A").data ∧
      containsSub agg.message.data ("Fallback (DeepSeek) error: " ++ "http 500 B").data) :=
  failover_exhaustion_aggregates_both_errors
    (fun _ => .error ⟨"timeout A"⟩) (fun _ => .error ⟨"http 500 B"⟩) "hi"
    ⟨"timeout A"⟩ ⟨"http 500 B"⟩ rfl rfl

/-- **C3** — the code evaluated at the failing input.  The claim (backed
by the `transcribe_from_url` docstring and by
`test_asr_service.py::test_transcribe_tech_mode_missing_hotword_id_raises_error`)
says Tech mode with no configured hotword id raises a fatal configuration
error before any external call.  The pre-call section of
`ASRService.transcribe_from_url` instead returns the DashScope call
parameters normally, merely logging that no hotword table is configured:
the external call proceeds, Tech mode silently behaves like General. -/
theorem tech_mode_missing_hotword_proceeds :
    ASRService.transcribe_from_url_pre "paraformer-v2" "https://example.com/v.mp4"
      "tech" none
      = .ok (⟨"paraformer-v2", ["https://example.com/v.mp4"], ["zh", "en"]⟩,
        ["info: 科技模式: 未配置热词表"]) := rfl

/-- **C4 counterexample.**  The claim states that for *every* pipeline run
(URL source or file source) a transient transcription failure degrades
into a placeholder transcript and the run still proceeds to analysis.
For a file-source run it is false: a raised `ASRError` is re-raised by
`process_file_workflow` (`main.py` line 266-273), so the run propagates
the error and the analysis stage is never reached — here concretely for
an ASR timeout on a staged file, with an LLM stub that would have
succeeded. -/
theorem file_transcription_failure_propagates_cex :
    WorkflowOrchestrator.process_file_workflow sampleTempFile
      (.error ⟨.asrError, "ASR transcription timed out after 300 seconds"⟩)
      (fun _ => .ok sampleResult)
      = .error ⟨.asrError, "ASR transcription timed out after 300 seconds"⟩ := rfl

/-- **C4 amended.**  Transcription-failure recovery is split by source
kind: for a URL-source run, a caught transcription failure (`ASRError` or
`ValueError`) degrades into the transcript
`"Video: {title} (ASR failed: {reason})"` and the run proceeds to the
analysis stage on that transcript; for a file-source run, a typed
transcription failure (`ASRError`, `ValueError`, `OSSUploaderError`) is
re-raised and the analysis stage is not reached — only an unexpected
exception class degrades (to `"File: {name} (Processing failed: {reason})"`)
and proceeds to analysis. -/
theorem transcription_failure_recovery_policy (vi : VideoInfo) (fi : TempFileInfo)
    (m : String) (llm : String → Except LLMError AnalysisResult) :
    (WorkflowOrchestrator.process_url_workflow vi (.error ⟨.asrError, m⟩) llm
      = urlAnalysisPhase vi ("Video: " ++ vi.title ++ " (ASR failed: " ++ m ++ ")") llm) ∧
    (WorkflowOrchestrator.process_url_workflow vi (.error ⟨.valueError, m⟩) llm
      = urlAnalysisPhase vi ("Video: " ++ vi.title ++ " (ASR failed: " ++ m ++ ")") llm) ∧
    (WorkflowOrchestrator.process_file_workflow fi (.error ⟨.asrError, m⟩) llm
      = .error ⟨.asrError, m⟩) ∧
    (WorkflowOrchestrator.process_file_workflow fi (.error ⟨.valueError, m⟩) llm
      = .error ⟨.valueError, m⟩) ∧
    (WorkflowOrchestrator.process_file_workflow fi (.error ⟨.ossUploaderError, m⟩) llm
      = .error ⟨.ossUploaderError, m⟩) ∧
    (WorkflowOrchestrator.process_file_workflow fi (.error ⟨.otherExc, m⟩) llm
      = fileAnalysisPhase fi
          ("File: " ++ fi.original_filename ++ " (Processing failed: " ++ m ++ ")") llm) :=
  ⟨rfl, rfl, rfl, rfl, rfl, rfl⟩

/-- **C5.**  For every successful `get_analysis` run, the produced result
is exactly one of the two variants of the tagged union `RouteResult`
(an `AnalysisResult` for the narrative track, the decoded tech-spec value
for the tech track), and the populated variant matches the requested
analysis mode. -/
theorem get_analysis_variant_matches_mode
    (analysis_mode transcript prompt_content : String)
    (execution_service : String → Except LLMError AnalysisResult)
    (res : RouteResult)
    (h : LLMTrackRouter.get_analysis analysis_mode transcript prompt_content
      execution_service = .ok res) :
    ((analysis_mode = "general") ↔ ∃ r, res = .narrative r) ∧
    ((analysis_mode = "tech") ↔ ∃ j, res = .techSpec j) := by
  by_cases hg : analysis_mode = "general"
  · subst hg
    simp only [LLMTrackRouter.get_analysis, LLMTrackRouter.route_map] at h
    norm_num at h
    cases hres : execution_service transcript with
    | ok r =>
      rw [hres] at h
      simp at h
      subst h
      refine ⟨⟨fun _ => ⟨r, rfl⟩, fun _ => rfl⟩, ?_⟩
      constructor
      · intro hc; exact absurd hc (by decide)
      · rintro ⟨j, hj⟩; cases hj
    | error e =>
      rw [hres] at h
      simp at h
  · by_cases ht : analysis_mode = "tech"
    · subst ht
      simp only [LLMTrackRouter.get_analysis, LLMTrackRouter.route_map] at h
      norm_num at h
      rw [if_neg (by decide : ¬("tech" : String) = "general")] at h
      split at h
      · simp at h
      · split at h
        · next j heq2 =>
            simp at h
            subst h
            refine ⟨?_, ⟨fun _ => ⟨j, rfl⟩, fun _ => rfl⟩⟩
            constructor
            · intro hc; exact absurd hc (by decide)
            · rintro ⟨r, hr⟩; simp at hr
        · simp at h
    · exfalso
      simp only [LLMTrackRouter.get_analysis, LLMTrackRouter.route_map] at h
      rw [List.find?] at h
      simp [hg, ht, Ne.symm hg, Ne.symm ht] at h
      split at h <;> simp at h

/-- Witness for C5: a concrete successful general-mode run (the result is
the narrative variant) and a concrete successful tech-mode run where the
execution service returns `"null"` as the tech-spec JSON text (the result
is the tech variant). -/
theorem get_analysis_variant_matches_mode_witness :
    (((("general" : String) = "general") ↔
        ∃ r, RouteResult.narrative sampleResult = .narrative r) ∧
      ((("general" : String) = "tech") ↔
        ∃ j, RouteResult.narrative sampleResult = .techSpec j)) ∧
    (((("tech" : String) = "general") ↔
        ∃ r, RouteResult.techSpec .null = .narrative r) ∧
      ((("tech" : String) = "tech") ↔
        ∃ j, RouteResult.techSpec .null = .techSpec j)) :=
  ⟨get_analysis_variant_matches_mode "general" "hello" "PROMPT"
      (fun _ => .ok sampleResult) (.narrative sampleResult) rfl,
    get_analysis_variant_matches_mode "tech" "hello" "PROMPT"
      (fun _ => .ok ⟨"", "null", sampleDetail⟩) (.techSpec .null) rfl⟩

/-- Serializing a JSON object always yields a non-empty string (it starts
with an opening brace). -/
theorem dumps_obj_ne_empty (kvs : List (String × Json)) : Json.dumps (.obj kvs) ≠ "" := by
  intro h
  have hd := congrArg String.data h
  rw [Json.dumps] at hd
  simp only [String.data_append] at hd
  simp [List.append_eq_nil] at hd

/-- **C6.**  If the decoded model-output object carries the
`schema_type == "v3_tech_spec"` marker, the adapter parser produces the
tech-spec result (the whole object serialized into `cleaned_transcript`,
narrative fields empty) — the narrative extraction path is never entered.
The parser receives no mode argument at all (neither adapter's parse block
reads the requested mode), so the marker, not the request mode, determines
the variant. -/
theorem schema_marker_forces_tech_variant
    (kvs : List (String × Json))
    (h : lookupKey kvs "schema_type" = some (.str "v3_tech_spec")) :
    parse_analysis_data (.obj kvs)
      = .ok ⟨"", Json.dumps (.obj kvs), ⟨"", "", "", none⟩⟩ := by
  simp [parse_analysis_data, schemaTypeIsTech, h]

/-- Witness for C6: a concrete tech-marked decoded object. -/
theorem schema_marker_forces_tech_variant_witness :
    parse_analysis_data
      (.obj [("schema_type", .str "v3_tech_spec"), ("product_parameters", .arr [.str "IP68"])])
      = .ok ⟨"",
        Json.dumps (.obj [("schema_type", .str "v3_tech_spec"),
          ("product_parameters", .arr [.str "IP68"])]),
        ⟨"", "", "", none⟩⟩ :=
  schema_marker_forces_tech_variant
    [("schema_type", .str "v3_tech_spec"), ("product_parameters", .arr [.str "IP68"])] rfl

/-- **C7.**  For a file-source run, on every exit path of `parse_video`
(success, typed error, unexpected error) the `finally` block runs the
scoped cleanup: if the filesystem unlink succeeds, the staged path no
longer exists afterwards (whether or not it still existed when cleanup
ran), and — for every unlink outcome, including failures, which both
cleanup layers swallow — the run's original outcome is returned
unchanged, never replaced by a cleanup error. -/
theorem cleanup_on_every_exit_path
    (outcome : Except RaisedExc AnalysisData) (fs : String → Bool)
    (fi : TempFileInfo) (unlink : UnlinkOutcome) :
    (parse_video_finalize outcome fs unlink (some fi)).1 = outcome ∧
    (unlink = .ok →
      (parse_video_finalize outcome fs unlink (some fi)).2 fi.file_path = false) := by
  refine ⟨rfl, ?_⟩
  intro hu
  subst hu
  simp only [parse_video_finalize, WorkflowOrchestrator.cleanup_resources,
    FileHandler.cleanup]
  by_cases hf : fs fi.file_path <;> simp [hf]

/-- Witness for C7: a successful run and a fatally-failed run over a
filesystem containing exactly the staged file; in both the outcome is
unchanged and the staged path is gone. -/
theorem cleanup_on_every_exit_path_witness :
    ((parse_video_finalize (.ok ⟨"t", .errorField "e"⟩)
        (fun q => q == "/tmp/scriptparser/u-1-a.mp4") .ok (some sampleTempFile)).1
        = .ok ⟨"t", .errorField "e"⟩ ∧
      (UnlinkOutcome.ok = .ok →
        (parse_video_finalize (.ok ⟨"t", .errorField "e"⟩)
          (fun q => q == "/tmp/scriptparser/u-1-a.mp4") .ok (some sampleTempFile)).2
          sampleTempFile.file_path = false)) ∧
    ((parse_video_finalize (.error ⟨.ossUploaderError, "upload failed"⟩)
        (fun q => q == "/tmp/scriptparser/u-1-a.mp4") .ok (some sampleTempFile)).1
        = .error ⟨.ossUploaderError, "upload failed"⟩ ∧
      (UnlinkOutcome.ok = .ok →
        (parse_video_finalize (.error ⟨.ossUploaderError, "upload failed"⟩)
          (fun q => q == "/tmp/scriptparser/u-1-a.mp4") .ok (some sampleTempFile)).2
          sampleTempFile.file_path = false)) :=
  ⟨cleanup_on_every_exit_path (.ok ⟨"t", .errorField "e"⟩)
      (fun q => q == "/tmp/scriptparser/u-1-a.mp4") sampleTempFile .ok,
    cleanup_on_every_exit_path (.error ⟨.ossUploaderError, "upload failed"⟩)
      (fun q => q == "/tmp/scriptparser/u-1-a.mp4") sampleTempFile .ok⟩

/-- **C8.**  A decoded narrative-mode output whose `hook` field is a
nested JSON object (with `core`/`cta` arbitrary decoded values) parses
without a decode error; the nested object is coerced to the non-empty
string `json.dumps` of the object, and the same `to_string` coercion
applies to every field that is an object. -/
theorem narrative_nested_object_coercion
    (kvs akvs hkvs : List (String × Json)) (raw_s cleaned_s : String)
    (coreJ ctaJ : Json)
    (hmark : schemaTypeIsTech kvs = false)
    (hana : lookupKey kvs "analysis" = some (.obj akvs))
    (hraw : lookupKey kvs "raw_transcript" = some (.str raw_s))
    (hclean : lookupKey kvs "cleaned_transcript" = some (.str cleaned_s))
    (hhook : lookupKey akvs "hook" = some (.obj hkvs))
    (hcore : lookupKey akvs "core" = some coreJ)
    (hcta : lookupKey akvs "cta" = some ctaJ) :
    parse_analysis_data (.obj kvs)
      = .ok ⟨raw_s, cleaned_s,
        ⟨Json.dumps (.obj hkvs), to_string coreJ, to_string ctaJ,
          extract_key_quotes akvs⟩⟩ ∧
    Json.dumps (.obj hkvs) ≠ "" ∧
    (∀ o : List (String × Json), to_string (.obj o) = Json.dumps (.obj o)) := by
  refine ⟨?_, dumps_obj_ne_empty hkvs, fun _ => rfl⟩
  simp [parse_analysis_data, hmark, hana, hraw, hclean, hhook, hcore, hcta, to_string]

/-- Witness for C8: a concrete narrative output whose `hook` and `core`
are nested objects and whose `cta` is a plain string. -/
theorem narrative_nested_object_coercion_witness :
    parse_analysis_data
      (.obj [("raw_transcript", .str "r"), ("cleaned_transcript", .str "c"),
        ("analysis", .obj [("hook", .obj [("text", .str "x")]),
          ("core", .obj [("k", .num 2)]), ("cta", .str "buy")])])
      = .ok ⟨"r", "c",
        ⟨Json.dumps (.obj [("text", .str "x")]),
          to_string (.obj [("k", .num 2)]), to_string (.str "buy"),
          extract_key_quotes [("hook", .obj [("text", .str "x")]),
            ("core", .obj [("k", .num 2)]), ("cta", .str "buy")]⟩⟩ ∧
    Json.dumps (.obj [("text", .str "x")]) ≠ "" ∧
    (∀ o : List (String × Json), to_string (.obj o) = Json.dumps (.obj o)) :=
  narrative_nested_object_coercion
    [("raw_transcript", .str "r"), ("cleaned_transcript", .str "c"),
      ("analysis", .obj [("hook", .obj [("text", .str "x")]),
        ("core", .obj [("k", .num 2)]), ("cta", .str "buy")])]
    [("hook", .obj [("text", .str "x")]), ("core", .obj [("k", .num 2)]),
      ("cta", .str "buy")]
    [("text", .str "x")] "r" "c" (.obj [("k", .num 2)]) (.str "buy")
    rfl rfl rfl rfl rfl rfl rfl

/-- **C9.**  For every exception whose class is not one of the mapped
kinds, the error-response builder produces the `UnknownError` envelope:
HTTP status 500, business code 9999, and the fixed message
`"An internal server error occurred"` — the envelope is a constant
independent of the exception's own message, so that message is never
echoed verbatim. -/
theorem unknown_error_envelope (cls : ExcClass) (msg : String) (pt : Option Nat)
    (h : ErrorHandler.ERROR_MAPPINGS cls = none) :
    ErrorHandler.create_error_response cls msg pt
      = ⟨500, 9999, false, "An internal server error occurred", pt⟩ := by
  simp [ErrorHandler.create_error_response, h]

/-- Witness for C9: an unmapped `ValueError` carrying an internal detail
that does not appear in the envelope. -/
theorem unknown_error_envelope_witness :
    ErrorHandler.create_error_response .valueError "secret internal detail" (some 3)
      = ⟨500, 9999, false, "An internal server error occurred", some 3⟩ :=
  unknown_error_envelope .valueError "secret internal detail" (some 3) rfl

/-- **C10.**  The error-to-envelope mapping is decided by exact class
identity (a dict lookup keyed on `type(exception)`), not by `isinstance`:
any proper subclass of a mapped kind falls through to the `UnknownError`
envelope (HTTP 500, code 9999), while the parent kind itself maps to its
registered HTTP status and business code with the exception's own
message. -/
theorem subclass_maps_to_unknown_error (parent : ExcClass) (name msg : String)
    (pt : Option Nat) (m : Nat × Nat × String)
    (h : ErrorHandler.ERROR_MAPPINGS parent = some m) :
    ErrorHandler.create_error_response (.subclass parent name) msg pt
      = ⟨500, 9999, false, "An internal server error occurred", pt⟩ ∧
    ErrorHandler.create_error_response parent msg pt
      = ⟨m.1, m.2.1, false, msg, pt⟩ := by
  constructor
  · simp [ErrorHandler.create_error_response, ErrorHandler.ERROR_MAPPINGS]
  · simp [ErrorHandler.create_error_response, h]

/-- Witness for C10: a hypothetical `ASRError` subclass (e.g. a
service-specific refinement) maps to 500/9999 while `ASRError` itself
maps to 503/5001. -/
theorem subclass_maps_to_unknown_error_witness :
    ErrorHandler.create_error_response (.subclass .asrError "NLSASRError")
        "provider down" (some 2)
      = ⟨500, 9999, false, "An internal server error occurred", some 2⟩ ∧
    ErrorHandler.create_error_response .asrError "provider down" (some 2)
      = ⟨503, 5001, false, "provider down", some 2⟩ :=
  subclass_maps_to_unknown_error .asrError "NLSASRError" "provider down" (some 2)
    (503, 5001, "ASR service is temporarily unavailable") rfl

end ScriptParser
